import Mathlib

/-!
Shallow embedding of the connection lifecycle and event-dispatch engine of
src/discord/client.py (the Client class): dispatch, _run_event, on_error,
login, close, _make_websocket/connect, keep_alive_handler, received_message,
and the max_messages capacity rule of Client.__init__.

Python values are modelled as follows: an attribute that may be unset is an
Option whose none means the attribute is absent (reading it goes through
__getattr__ and raises AttributeError); a Python None value stored in a set
attribute is modelled by none of a separate Option where noted.  Side effects
(network requests, websocket frames, task scheduling, logging) are recorded
as explicit action traces.  Exceptions are a Lean inductive carried in an
Option PyErr result component; some err means the Python call raised.
-/

namespace DiscordClient

/-- Exceptions that the embedded code can raise: the library's own error
classes from discord/errors.py plus the Python builtins that the client
code can trigger. -/
inductive PyErr where
  /-- Python AttributeError; the payload names the attribute looked up. -/
  | attributeError (attr : String)
  /-- discord.errors.ClientException -/
  | clientException (msg : String)
  /-- discord.errors.LoginFailure -/
  | loginFailure (msg : String)
  /-- discord.errors.HTTPException with the optional server message -/
  | httpException (msg : Option String)
  /-- discord.errors.GatewayNotFound -/
  | gatewayNotFound
  /-- Python KeyError on a dict subscript -/
  | keyError (key : String)
  /-- Python TypeError, e.g. subscripting None -/
  | typeError (msg : String)
  /-- an arbitrary exception raised by user or handler code; the payload
  names where it came from -/
  | userErr (src : String)
  deriving Repr, DecidableEq

/-- Outbound websocket frames built by the client. -/
inductive OutFrame where
  /-- the keep-alive payload: op 1 with the current unix time -/
  | heartbeat (timestamp : Int)
  /-- the initial identify payload of _make_websocket: op 2 with the token
  (self.token is initialised to Python None, hence the Option) -/
  | identify (token : Option String)
  deriving Repr, DecidableEq

/-- One observable step performed by the client code.  Task identifiers are
allocated by the model to name the tasks that utils.create_task spawns. -/
inductive Action where
  | logDebug (s : String)
  | logInfo (s : String)
  /-- synchronous call of the internal state-mutation handler
  getattr(self, handle_event)(*args) inside dispatch -/
  | runHandler (name : String)
  /-- utils.create_task(self._run_event(on_event, ...)): the user callback
  is scheduled fire-and-forget, not executed here -/
  | scheduleEvent (taskId : Nat) (name : String)
  /-- synchronous call of getattr(self.connection, parse_event)(data):
  the State Store mutation for a dispatch frame -/
  | runParser (name : String)
  /-- utils.create_task(self.keep_alive_handler(interval)); the interval is
  in seconds, already divided by 1000 -/
  | startHeartbeat (taskId : Nat) (intervalSeconds : ℚ)
  | httpGet (url : String)
  | httpPost (url : String)
  | wsConnect (url : Option String)
  | wsSend (frame : OutFrame)
  | wsClose
  | cancelTask (taskId : Nat)
  /-- connect() entering its while-loop over ws.recv() -/
  | enterReceiveLoop
  deriving Repr, DecidableEq

/-!  ## Event dispatch (Client.dispatch, client.py lines 185-194)

The handler surface of a client instance is abstracted by which attributes
exist (hasattr on handle_<event> and on_<event>) and by whether the
synchronous internal handler completes or raises.  -/

/-- The reflection surface that dispatch probes with hasattr, plus the
outcome of the synchronous internal handler when it runs. -/
structure Handlers where
  /-- hasattr(self, handle_<event>) -/
  hasHandle : String → Bool
  /-- true when handle_<event> runs to completion, false when it raises -/
  handleOk : String → Bool
  /-- hasattr(self, on_<event>) -/
  hasOn : String → Bool

/-- Client.dispatch(event, *args, **kwargs): log, run handle_<event>
synchronously when present (its exception propagates, aborting dispatch),
then schedule on_<event> via utils.create_task when present.  `tid` is the
next free task identifier; the third component is the next free identifier
after the call. -/
def dispatch (c : Handlers) (event : String) (tid : Nat) :
    List Action × Option PyErr × Nat :=
  let pre := [Action.logDebug ("Dispatching event " ++ event)]
  if c.hasHandle event then
    if c.handleOk event then
      let t1 := pre ++ [Action.runHandler ("handle_" ++ event)]
      if c.hasOn event then
        (t1 ++ [Action.scheduleEvent tid ("on_" ++ event)], none, tid + 1)
      else (t1, none, tid)
    else
      (pre ++ [Action.runHandler ("handle_" ++ event)],
       some (PyErr.userErr ("handle_" ++ event)), tid)
  else
    if c.hasOn event then
      (pre ++ [Action.scheduleEvent tid ("on_" ++ event)], none, tid + 1)
    else (pre, none, tid)

/-!  ## Fault isolation of user callbacks (Client._run_event, lines 178-183,
and the default Client.on_error, lines 304-315) -/

/-- Effects observable while a scheduled user callback runs. -/
inductive RunEffect where
  /-- an opaque side effect of the user callback body -/
  | userEffect (s : String)
  /-- the call self.on_error(event, *args, **kwargs) made by _run_event,
  recording the event name and the original arguments -/
  | onErrorCall (event : String) (args : List String)
  /-- a line printed to sys.stderr -/
  | stderrLine (s : String)
  deriving Repr, DecidableEq

/-- What running a coroutine body does: its effects and an optional raised
exception. -/
structure CbOutcome where
  effects : List RunEffect
  err : Option PyErr

/-- The default Client.on_error: print the identifying context to
sys.stderr followed by the traceback, and return normally. -/
def defaultOnError (event : String) (_args : List String) : CbOutcome :=
  ⟨[RunEffect.stderrLine ("Ignoring exception in " ++ event),
    RunEffect.stderrLine "traceback"], none⟩

/-- Client._run_event: run the callback; when it raises any exception, the
exception is swallowed and self.on_error(event, *args, **kwargs) runs in
its place.  `cb` is the registered on_<event> coroutine and `onErr` the
(possibly overridden) on_error coroutine, both given by their outcomes. -/
def runEvent (cb onErr : String → List String → CbOutcome)
    (event : String) (args : List String) : List RunEffect × Option PyErr :=
  let r := cb event args
  match r.err with
  | none => (r.effects, none)
  | some _ =>
    let er := onErr event args
    (r.effects ++ RunEffect.onErrorCall event args :: er.effects, er.err)

/-!  ## Login (Client.login, lines 247-289)

The session attributes that login reads and writes.  `isLoggedInAttr` is
the _is_logged_in instance attribute: Client.__init__ never sets it, so
none means the attribute is absent and reading it through the
is_logged_in property triggers __getattr__, which raises AttributeError
for names outside its compatibility list (lines 145-150). -/

structure AuthState where
  /-- self.token; __init__ sets it to Python None (modelled as none) -/
  token : Option String
  /-- self.email, stored on the ConnectionState via the __setattr__ shim;
  none before a successful login -/
  email : Option String
  /-- the _is_logged_in attribute; none = attribute never set -/
  isLoggedInAttr : Option Bool
  /-- the authorization entry of self.headers -/
  authHeader : Option String
  deriving Repr, DecidableEq

/-- The AuthState of a freshly constructed Client (__init__, lines 92-107):
token is Python None, email unset on the connection, _is_logged_in never
assigned, no authorization header. -/
def freshAuthState : AuthState := ⟨none, none, none, none⟩

/-- The HTTP response the login POST came back with: its status code, the
token field of its JSON body when present, and the message field that the
non-200 branch reads with data.get. -/
structure HttpResponse where
  status : Nat
  bodyToken : Option String
  bodyMessage : Option String
  deriving Repr, DecidableEq

/-- Client.login(email, password): POST to the login endpoint; status 400
raises LoginFailure, any other non-200 raises HTTPException with the
server message, and only the 200 path stores the email, the token, the
authorization header and sets _is_logged_in to True.  The email is stored
(line 284) before the token subscript (line 287), so a body without a
token field leaves the email already mutated and raises KeyError. -/
def login (st : AuthState) (email _password : String) (resp : HttpResponse) :
    AuthState × List Action × Option PyErr :=
  let acts := [Action.httpPost "LOGIN"]
  if resp.status = 400 then
    (st, acts, some (PyErr.loginFailure "Improper credentials have been passed."))
  else if resp.status ≠ 200 then
    (st, acts, some (PyErr.httpException resp.bodyMessage))
  else
    match resp.bodyToken with
    | none => ({ st with email := some email }, acts, some (PyErr.keyError "token"))
    | some tok =>
      ({ token := some tok, email := some email, isLoggedInAttr := some true,
         authHeader := some tok }, acts, none)

/-!  ## close (Client.close, lines 234-245) -/

/-- The attributes Client.close touches.  `ws` is none while self.ws still
holds the Python None that __init__ assigned; `keepAlive` is none while
the keep_alive attribute was never assigned (received_message only sets it
on a READY frame), in which case reading it raises AttributeError through
__getattr__. -/
structure CloseState where
  /-- self._closed -/
  closed : Bool
  /-- self.ws: some id once a websocket was opened, none while it is the
  initial Python None -/
  ws : Option Nat
  /-- self.keep_alive: some taskId once a heartbeat task was started,
  none while the attribute was never set -/
  keepAlive : Option Nat
  deriving Repr, DecidableEq

/-- Client.close(): return immediately when already closed; otherwise call
self.ws.close() (an AttributeError on the attribute close of None when no
websocket was ever opened), then self.keep_alive.cancel() (an
AttributeError from __getattr__ when no heartbeat task was ever started),
and only then set _closed to True. -/
def closeClient (s : CloseState) : CloseState × List Action × Option PyErr :=
  if s.closed then (s, [], none)
  else
    match s.ws with
    | none => (s, [], some (PyErr.attributeError "close"))
    | some _ =>
      match s.keepAlive with
      | none => (s, [Action.wsClose], some (PyErr.attributeError "keep_alive"))
      | some t =>
        ({ s with closed := true }, [Action.wsClose, Action.cancelTask t], none)

/-!  ## connect (_make_websocket lines 347-372 and connect lines 374-397) -/

/-- The response of the gateway-discovery GET: its status and the url field
that _get_gateway reads with data.get. -/
structure GatewayResponse where
  status : Nat
  url : Option String
  deriving Repr, DecidableEq

/-- Client._make_websocket: read self.is_logged_in (the property returns
self._is_logged_in, so an unset attribute raises AttributeError before
anything else happens); when False raise ClientException; only then issue
the gateway-discovery GET (_get_gateway, raising GatewayNotFound on a
non-200 status), open the websocket and send the identify payload. -/
def makeWebsocket (st : AuthState) (resp : GatewayResponse) :
    List Action × Option PyErr :=
  match st.isLoggedInAttr with
  | none => ([], some (PyErr.attributeError "_is_logged_in"))
  | some false => ([], some (PyErr.clientException "You must be logged in to connect"))
  | some true =>
    let acts := [Action.httpGet "GATEWAY"]
    if resp.status ≠ 200 then (acts, some PyErr.gatewayNotFound)
    else
      (acts ++ [Action.wsConnect resp.url,
                Action.wsSend (OutFrame.identify st.token)], none)

/-- Client.connect(): its first statement is yield from
self._make_websocket(), whose exception propagates unchanged; on success
it enters the receive loop over ws.recv(). -/
def connect (st : AuthState) (resp : GatewayResponse) :
    List Action × Option PyErr :=
  let r := makeWebsocket st resp
  match r.2 with
  | some e => (r.1, some e)
  | none => (r.1 ++ [Action.enterReceiveLoop], none)

/-!  ## Heartbeat driver (Client.keep_alive_handler, lines 291-302)

The loop runs concurrently with close(), which can flip _closed between
iterations; `closedAt i` gives the value the loop reads at the top of its
i-th iteration and `clock i` the int(time.time()) it would send there.
The fuel argument bounds how many iterations are observed. -/

/-- One observable step of the keep-alive loop. -/
inductive HBAct where
  /-- ws.send of the payload with the given op and d fields -/
  | send (op : Int) (d : Int)
  /-- asyncio.sleep(interval) -/
  | sleep (seconds : ℚ)
  deriving Repr, DecidableEq

/-- The trace of keep_alive_handler(interval) from iteration i observed for
fuel iterations: while not self._closed, send the op-1 payload carrying
the current unix time, then sleep for the interval. -/
def keepAliveRun (interval : ℚ) (clock : Nat → Int) (closedAt : Nat → Bool) :
    Nat → Nat → List HBAct
  | _, 0 => []
  | i, n + 1 =>
    if closedAt i then []
    else HBAct.send 1 (clock i) :: HBAct.sleep interval ::
         keepAliveRun interval clock closedAt (i + 1) n

/-- The number of iterations the loop performs starting at iteration i with
n fuel: it stops at the first iteration whose _closed read is true. -/
def countOpen (closedAt : Nat → Bool) : Nat → Nat → Nat
  | _, 0 => 0
  | i, n + 1 => if closedAt i then 0 else countOpen closedAt (i + 1) n + 1

/-!  ## Frame handling (Client.received_message, lines 317-345) -/

/-- The d field of an inbound frame, reduced to the only key the lifecycle
itself subscripts; everything else in the payload flows opaquely to the
parser.  none in heartbeatInterval means the key is absent. -/
structure MsgPayload where
  heartbeatInterval : Option Int
  deriving Repr, DecidableEq

/-- An inbound frame as the dict that json.loads produced: received_message
reads op, d and t with dict.get, so each may be absent. -/
structure InboundMsg where
  op : Option Int
  t : Option String
  d : Option MsgPayload
  deriving Repr, DecidableEq

/-- Python str.lower() as received_message applies it to event names:
char-wise ASCII lowering (the same function as String.toLower, written
over the character list so that it evaluates by kernel reduction). -/
def pyLower (s : String) : String := ⟨s.data.map Char.toLower⟩

/-- The tuple of event names recognised by received_message, lines 334-340. -/
def recognizedEvents : List String :=
  ["READY", "MESSAGE_CREATE", "MESSAGE_DELETE",
   "MESSAGE_UPDATE", "PRESENCE_UPDATE", "USER_UPDATE",
   "CHANNEL_DELETE", "CHANNEL_UPDATE", "CHANNEL_CREATE",
   "GUILD_MEMBER_ADD", "GUILD_MEMBER_REMOVE",
   "GUILD_MEMBER_UPDATE", "GUILD_CREATE", "GUILD_DELETE",
   "GUILD_ROLE_CREATE", "GUILD_ROLE_DELETE", "TYPING_START",
   "GUILD_ROLE_UPDATE", "VOICE_STATE_UPDATE"]

/-- The client attributes received_message reads and writes: the dispatch
reflection surface, hasattr(self.connection, parse_<event>), the
keep_alive task reference, the set of spawned and not cancelled tasks, and
the next task identifier the model allocates. -/
structure RMState where
  handlers : Handlers
  /-- hasattr(self.connection, <name>) for parser names -/
  parsers : String → Bool
  /-- self.keep_alive; none while never assigned -/
  keepAlive : Option Nat
  /-- identifiers of tasks spawned by utils.create_task and never
  cancelled; a heartbeat task in here keeps running until cancelled -/
  tasks : List Nat
  nextTask : Nat

/-- Client.received_message(msg): log, dispatch socket_response with the
raw frame (an exception from its synchronous handler propagates), return
after a log line when op is not 0, start the keep-alive task on READY
(overwriting self.keep_alive unconditionally), then run the connection
parser for recognised event names and log unrecognised ones. -/
def receivedMessage (s : RMState) (msg : InboundMsg) :
    RMState × List Action × Option PyErr :=
  let dres := dispatch s.handlers "socket_response" s.nextTask
  let s1 : RMState :=
    { s with nextTask := dres.2.2,
             tasks := if dres.2.2 = s.nextTask then s.tasks
                      else s.tasks ++ [s.nextTask] }
  let tr1 := Action.logDebug "WebSocket Event" :: dres.1
  match dres.2.1 with
  | some e => (s1, tr1, some e)
  | none =>
    if msg.op ≠ some 0 then (s1, tr1 ++ [Action.logInfo "Unhandled op"], none)
    else
      if msg.t = some "READY" then
        match msg.d with
        | none => (s1, tr1, some (PyErr.typeError "NoneType is not subscriptable"))
        | some payload =>
          match payload.heartbeatInterval with
          | none => (s1, tr1, some (PyErr.keyError "heartbeat_interval"))
          | some ms =>
            let tid := s1.nextTask
            let s2 : RMState :=
              { s1 with keepAlive := some tid, tasks := s1.tasks ++ [tid],
                        nextTask := tid + 1 }
            let tr2 := tr1 ++ [Action.startHeartbeat tid ((ms : ℚ) / 1000)]
            -- READY is in the recognised tuple, so the membership branch
            -- runs next with parser = parse_ + lowercased event
            let p := "parse_" ++ pyLower "READY"
            if s.parsers p then (s2, tr2 ++ [Action.runParser p], none)
            else (s2, tr2, none)
      else
        match msg.t with
        | none => (s1, tr1 ++ [Action.logInfo "Unhandled event"], none)
        | some ev =>
          if ev ∈ recognizedEvents then
            let p := "parse_" ++ pyLower ev
            if s.parsers p then (s1, tr1 ++ [Action.runParser p], none)
            else (s1, tr1, none)
          else (s1, tr1 ++ [Action.logInfo "Unhandled event"], none)

/-!  ## Message-history capacity (Client.__init__, lines 98-102) -/

/-- The max_messages computation of Client.__init__: the configured value
is options.get, so none models an absent option or an explicit None;
None or a value below 100 falls back to 5000. -/
def effectiveMaxMessages (maxMessages : Option Int) : Int :=
  match maxMessages with
  | none => 5000
  | some v => if v < 100 then 5000 else v

/-- Modelled from the spec: the message-history container itself lives in
ConnectionState (discord/state.py, which is not among the sources;
client.py line 102 only passes max_messages to it as the deque bound).
Per the spec it is a capacity-bounded ordered sequence evicting oldest
entries on overflow — a FIFO ring, not LRU.  appendBounded appends one
entry at the new end and drops oldest entries beyond the capacity. -/
def appendBounded {α : Type*} (cap : Nat) (xs : List α) (x : α) : List α :=
  let ys := xs ++ [x]
  ys.drop (ys.length - cap)

/-!  ## Theorems -/

/-- A single bounded append leaves the history at min cap (length + 1). -/
theorem appendBounded_length {α : Type*} (cap : Nat) (xs : List α) (x : α) :
    (appendBounded cap xs x).length = min cap (xs.length + 1) := by
  simp only [appendBounded, List.length_drop, List.length_append,
    List.length_singleton]
  omega

/-- Claim C1 (code bug): connect() in the Unauthenticated state performs no
network I/O — the action trace is empty, so no gateway-discovery request,
no websocket open and no handshake send — but on the state __init__ leaves
behind (and after any failed login) the _is_logged_in attribute was never
assigned, so the is_logged_in property raises AttributeError through
__getattr__ instead of the ClientException that the connect docstring
promises; only after an explicit logout (attribute set to False) is the
ClientException path reached, again with no I/O. -/
theorem connect_unauthenticated_no_io (st : AuthState) (resp : GatewayResponse) :
    (st.isLoggedInAttr = none →
      connect st resp = ([], some (PyErr.attributeError "_is_logged_in"))) ∧
    (st.isLoggedInAttr = some false →
      connect st resp =
        ([], some (PyErr.clientException "You must be logged in to connect"))) := by
  constructor <;> intro h <;> simp [connect, makeWebsocket, h]

/-- Witness for connect_unauthenticated_no_io: the freshly constructed
client calling connect against a healthy gateway raises AttributeError
with an empty I/O trace. -/
theorem connect_unauthenticated_no_io_witness :
    connect freshAuthState ⟨200, some "wss://gateway"⟩ =
      ([], some (PyErr.attributeError "_is_logged_in")) :=
  (connect_unauthenticated_no_io freshAuthState ⟨200, some "wss://gateway"⟩).1 rfl

/-- Claim C4: a login answered with HTTP 400 fails with LoginFailure (the
credential-rejection error, distinguished from the HTTPException raised on
any other non-200 status) and performs no state transition: the whole
authentication state — token, stored email, logged-in flag and
authorization header — is returned unchanged. -/
theorem login_400_rejects_without_transition (st : AuthState)
    (email password : String) (resp other : HttpResponse)
    (h400 : resp.status = 400) (hn4 : other.status ≠ 400)
    (hn2 : other.status ≠ 200) :
    (login st email password resp).1 = st ∧
    (login st email password resp).2.2 =
      some (PyErr.loginFailure "Improper credentials have been passed.") ∧
    (login st email password other).2.2 =
      some (PyErr.httpException other.bodyMessage) := by
  refine ⟨?_, ?_, ?_⟩ <;> simp [login, h400, hn4, hn2]

/-- Witness for login_400_rejects_without_transition: a fresh client whose
login comes back 400 keeps the fresh state and sees LoginFailure, while a
500 answer sees the generic HTTPException. -/
theorem login_400_rejects_without_transition_witness :
    (login freshAuthState "user" "pw" ⟨400, none, none⟩).1 = freshAuthState ∧
    (login freshAuthState "user" "pw" ⟨400, none, none⟩).2.2 =
      some (PyErr.loginFailure "Improper credentials have been passed.") ∧
    (login freshAuthState "user" "pw" ⟨500, none, some "oops"⟩).2.2 =
      some (PyErr.httpException (some "oops")) :=
  login_400_rejects_without_transition freshAuthState "user" "pw"
    ⟨400, none, none⟩ ⟨500, none, some "oops"⟩ rfl (by decide) (by decide)

/-- Claim C10: on a client that never started a heartbeat task and never
opened a websocket, close() while not already closed raises AttributeError
(concretely from self.ws.close() on the ws attribute still holding None;
had a websocket existed, the unset keep_alive attribute would raise it
instead) rather than cleanly marking the session closed, and the closed
flag is still False afterwards. -/
theorem close_unset_attributes_raises (s : CloseState)
    (hc : s.closed = false) (hw : s.ws = none) (_hk : s.keepAlive = none) :
    closeClient s = (s, [], some (PyErr.attributeError "close")) ∧
    (closeClient s).1.closed = false := by
  refine ⟨?_, ?_⟩ <;> simp [closeClient, hc, hw]

/-- Witness for close_unset_attributes_raises at the state of a fresh
client: not closed, ws still None, keep_alive never assigned. -/
theorem close_unset_attributes_raises_witness :
    closeClient ⟨false, none, none⟩ =
      (⟨false, none, none⟩, [], some (PyErr.attributeError "close")) ∧
    (closeClient ⟨false, none, none⟩).1.closed = false :=
  close_unset_attributes_raises ⟨false, none, none⟩ rfl rfl rfl

/-- Claim C8: the message-history capacity is 5000 whenever max_messages is
absent or below 100 and the configured value otherwise; starting within
capacity, any sequence of appends never exceeds the capacity; an append
below capacity evicts nothing, and an append at capacity evicts exactly
the oldest (front) entry — FIFO. -/
theorem message_history_capacity_fifo {α : Type*} (m : Option Int) (v : Int)
    (cap : Nat) (xs ys : List α) (x : α)
    (hlen : xs.length ≤ cap) (hcap : 0 < cap) :
    (m = none → effectiveMaxMessages m = 5000) ∧
    (m = some v → v < 100 → effectiveMaxMessages m = 5000) ∧
    (m = some v → 100 ≤ v → effectiveMaxMessages m = v) ∧
    (ys.foldl (appendBounded cap) xs).length ≤ cap ∧
    (xs.length < cap → appendBounded cap xs x = xs ++ [x]) ∧
    (xs.length = cap → appendBounded cap xs x = xs.tail ++ [x]) := by
  refine ⟨?_, ?_, ?_, ?_, ?_, ?_⟩
  · intro h; simp [h, effectiveMaxMessages]
  · intro h hv; simp [h, effectiveMaxMessages, hv]
  · intro h hv; simp [h, effectiveMaxMessages, not_lt.mpr hv]
  · clear hcap
    induction ys generalizing xs with
    | nil => simpa using hlen
    | cons y ys ih =>
      simp only [List.foldl_cons]
      exact ih _ (by rw [appendBounded_length]; omega)
  · intro h
    simp only [appendBounded]
    rw [Nat.sub_eq_zero_of_le (by simp; omega), List.drop_zero]
  · intro h
    cases xs with
    | nil => exfalso; simp at h; omega
    | cons z zs =>
      have hx : ((z :: zs) ++ [x]).length - cap = 1 := by
        simp at h ⊢
        omega
      show List.drop (((z :: zs) ++ [x]).length - cap) ((z :: zs) ++ [x]) =
        (z :: zs).tail ++ [x]
      rw [hx]
      simp

/-- Witness for message_history_capacity_fifo: capacity 2 over a full
history [1, 2]; three more appends keep the length at 2 and the
at-capacity append drops the oldest entry 1. -/
theorem message_history_capacity_fifo_witness :
    ((none : Option Int) = none → effectiveMaxMessages none = 5000) ∧
    ((none : Option Int) = some 7 → (7 : Int) < 100 →
      effectiveMaxMessages none = 5000) ∧
    ((none : Option Int) = some 7 → (100 : Int) ≤ 7 →
      effectiveMaxMessages none = 7) ∧
    (([3, 4, 5].foldl (appendBounded 2) [1, 2]).length ≤ 2) ∧
    (([1, 2] : List Nat).length < 2 → appendBounded 2 [1, 2] 9 = [1, 2] ++ [9]) ∧
    (([1, 2] : List Nat).length = 2 →
      appendBounded 2 [1, 2] 9 = List.tail [1, 2] ++ [9]) :=
  message_history_capacity_fifo none 7 2 [1, 2] [3, 4, 5] 9 (by decide) (by decide)

/-- Claim C2: an exception raised inside a user callback is caught at the
dispatch boundary by _run_event: the on_error hook is invoked with the
event name and the original arguments, the callback exception itself never
propagates (the only error the runner can surface is the one the hook
itself raises, and the scheduled task runs apart from the receive loop, so
nothing reaches it), and the default on_error prints the identifying
context and the traceback to stderr and surfaces no error at all. -/
theorem callback_fault_isolated (cb : String → List String → CbOutcome)
    (event : String) (args : List String) (e : PyErr)
    (he : (cb event args).err = some e) :
    (∀ onErr, (runEvent cb onErr event args).2 = (onErr event args).err) ∧
    RunEffect.onErrorCall event args ∈ (runEvent cb defaultOnError event args).1 ∧
    (runEvent cb defaultOnError event args).2 = none ∧
    RunEffect.stderrLine ("Ignoring exception in " ++ event) ∈
      (runEvent cb defaultOnError event args).1 := by
  refine ⟨fun onErr => ?_, ?_, ?_, ?_⟩ <;>
    simp [runEvent, he, defaultOnError]

/-- Witness for callback_fault_isolated: a callback for message_create
that raises is redirected to the default on_error, which reports the event
and propagates nothing. -/
theorem callback_fault_isolated_witness :
    (∀ onErr, (runEvent (fun _ _ => ⟨[], some (PyErr.userErr "boom")⟩) onErr
        "message_create" ["m1"]).2 = (onErr "message_create" ["m1"]).err) ∧
    RunEffect.onErrorCall "message_create" ["m1"] ∈
      (runEvent (fun _ _ => ⟨[], some (PyErr.userErr "boom")⟩) defaultOnError
        "message_create" ["m1"]).1 ∧
    (runEvent (fun _ _ => ⟨[], some (PyErr.userErr "boom")⟩) defaultOnError
      "message_create" ["m1"]).2 = none ∧
    RunEffect.stderrLine ("Ignoring exception in " ++ "message_create") ∈
      (runEvent (fun _ _ => ⟨[], some (PyErr.userErr "boom")⟩) defaultOnError
        "message_create" ["m1"]).1 :=
  callback_fault_isolated (fun _ _ => ⟨[], some (PyErr.userErr "boom")⟩)
    "message_create" ["m1"] (PyErr.userErr "boom") rfl

/-- Claim C3: when both the internal handler and the user callback exist
for an event, dispatch runs handle_<event> synchronously and its
completion or failure strictly precedes any callback scheduling: on
success the trace is the log line, then the handler run, then the
fire-and-forget scheduleEvent (only a task spawn — the callback body is
not executed inside dispatch, so the receive loop is not blocked); on
handler failure nothing is scheduled at all and the exception propagates. -/
theorem dispatch_handler_before_callback (c : Handlers) (event : String)
    (tid : Nat) (hh : c.hasHandle event = true) (ho : c.hasOn event = true) :
    (c.handleOk event = true →
      dispatch c event tid =
        ([Action.logDebug ("Dispatching event " ++ event),
          Action.runHandler ("handle_" ++ event),
          Action.scheduleEvent tid ("on_" ++ event)], none, tid + 1)) ∧
    (c.handleOk event = false →
      dispatch c event tid =
        ([Action.logDebug ("Dispatching event " ++ event),
          Action.runHandler ("handle_" ++ event)],
         some (PyErr.userErr ("handle_" ++ event)), tid)) := by
  constructor <;> intro h <;> simp [dispatch, hh, ho, h]

/-- Witness for dispatch_handler_before_callback: a client exposing
handle_ready and on_ready, with a succeeding internal handler, dispatches
ready with the handler run strictly before the callback is scheduled. -/
theorem dispatch_handler_before_callback_witness :
    (Handlers.handleOk ⟨fun e => e == "ready", fun _ => true,
        fun e => e == "ready"⟩ "ready" = true →
      dispatch ⟨fun e => e == "ready", fun _ => true, fun e => e == "ready"⟩
          "ready" 0 =
        ([Action.logDebug ("Dispatching event " ++ "ready"),
          Action.runHandler ("handle_" ++ "ready"),
          Action.scheduleEvent 0 ("on_" ++ "ready")], none, 0 + 1)) ∧
    (Handlers.handleOk ⟨fun e => e == "ready", fun _ => true,
        fun e => e == "ready"⟩ "ready" = false →
      dispatch ⟨fun e => e == "ready", fun _ => true, fun e => e == "ready"⟩
          "ready" 0 =
        ([Action.logDebug ("Dispatching event " ++ "ready"),
          Action.runHandler ("handle_" ++ "ready")],
         some (PyErr.userErr ("handle_" ++ "ready")), 0)) :=
  dispatch_handler_before_callback
    ⟨fun e => e == "ready", fun _ => true, fun e => e == "ready"⟩
    "ready" 0 (by decide) (by decide)

/-- Claim C6: the keep-alive loop consists, for exactly as many iterations
as the closed flag reads false, of one op-1 control frame carrying the
current unix time followed by one sleep of the interval it was started
with — nothing else — and from any point at which the flag reads true
(close() sets it, besides cancelling the task) no further heartbeat frame
is ever sent. -/
theorem keep_alive_one_frame_per_interval (interval : ℚ) (clock : Nat → Int)
    (closedAt : Nat → Bool) (i n : Nat) :
    keepAliveRun interval clock closedAt i n =
      ((List.range (countOpen closedAt i n)).map
        (fun k => [HBAct.send 1 (clock (i + k)), HBAct.sleep interval])).flatten ∧
    (closedAt i = true → keepAliveRun interval clock closedAt i n = []) := by
  constructor
  · induction n generalizing i with
    | zero => simp [keepAliveRun, countOpen]
    | succ n ih =>
      by_cases hc : closedAt i = true
      · simp [keepAliveRun, countOpen, hc]
      · have hfun : (fun k => [HBAct.send 1 (clock (i + 1 + k)),
              HBAct.sleep interval]) =
            ((fun k => [HBAct.send 1 (clock (i + k)), HBAct.sleep interval]) ∘
              Nat.succ) := by
          funext k
          have hik : i + 1 + k = i + Nat.succ k := by omega
          simp [Function.comp, hik]
        rw [keepAliveRun, countOpen, if_neg hc, if_neg hc,
          List.range_succ_eq_map, List.map_cons, List.flatten_cons,
          List.map_map, ih (i + 1), hfun]
        simp
  · intro h
    cases n with
    | zero => rfl
    | succ n => rw [keepAliveRun, if_pos h]

/-- Witness for keep_alive_one_frame_per_interval: a driver started with a
45 second interval at a point where close() has already run (flag true
from iteration 2 on) sends nothing, and observed from the start it sends
exactly two frames with their sleeps before stopping. -/
theorem keep_alive_one_frame_per_interval_witness :
    keepAliveRun 45 (fun t => 1000 + t) (fun j => decide (2 ≤ j)) 2 5 = [] ∧
    keepAliveRun 45 (fun t => 1000 + t) (fun j => decide (2 ≤ j)) 0 5 =
      ((List.range (countOpen (fun j => decide (2 ≤ j)) 0 5)).map
        (fun k => [HBAct.send 1 ((fun t => (1000 : Int) + t) (0 + k)),
                   HBAct.sleep 45])).flatten :=
  ⟨(keep_alive_one_frame_per_interval 45 (fun t => 1000 + t)
      (fun j => decide (2 ≤ j)) 2 5).2 (by decide),
   (keep_alive_one_frame_per_interval 45 (fun t => 1000 + t)
      (fun j => decide (2 ≤ j)) 0 5).1⟩

/-- A client refuting the literal reading of claim C5: no internal
handlers, a user on_socket_response callback registered, a connection
exposing parse_ready. -/
def readyCexClient : RMState :=
  { handlers := ⟨fun _ => false, fun _ => true, fun e => e == "socket_response"⟩,
    parsers := fun p => p == "parse_ready",
    keepAlive := none, tasks := [], nextTask := 0 }

/-- A READY dispatch frame with heartbeat_interval 45000 ms. -/
def readyCexFrame : InboundMsg := ⟨some 0, some "READY", some ⟨some 45000⟩⟩

/-- Counterexample to claim C5 as stated: on this READY frame the client
does not start the Heartbeat Driver before any other processing of the
frame — the raw socket_response dispatch runs first and schedules the
registered user callback with the frame (trace position 2) strictly
before the heartbeat task is started (trace position 3). -/
theorem ready_heartbeat_not_first :
    (receivedMessage readyCexClient readyCexFrame).2.1 =
      [Action.logDebug "WebSocket Event",
       Action.logDebug "Dispatching event socket_response",
       Action.scheduleEvent 0 "on_socket_response",
       Action.startHeartbeat 1 45,
       Action.runParser "parse_ready"] ∧
    (receivedMessage readyCexClient readyCexFrame).2.1.get? 2 =
      some (Action.scheduleEvent 0 "on_socket_response") ∧
    (receivedMessage readyCexClient readyCexFrame).2.1.get? 3 =
      some (Action.startHeartbeat 1 45) := by
  have h : (receivedMessage readyCexClient readyCexFrame).2.1 =
      [Action.logDebug "WebSocket Event",
       Action.logDebug "Dispatching event socket_response",
       Action.scheduleEvent 0 "on_socket_response",
       Action.startHeartbeat 1 45,
       Action.runParser "parse_ready"] := by
    simp [receivedMessage, dispatch, readyCexClient, readyCexFrame, pyLower]
    norm_num
  refine ⟨h, ?_, ?_⟩ <;> rw [h] <;> rfl

/-- Claim C5 as amended: on a READY dispatch frame whose payload carries
heartbeat_interval, received_message reads it, divides it by 1000
(milliseconds to seconds) and starts the Heartbeat Driver before the
frame's own state-mutation parser (parse_ready) and before anything else
except the op-independent raw socket_response dispatch, which itself
contains no state mutation and no heartbeat activity; keep_alive then
references the new task. -/
theorem ready_starts_heartbeat_before_event_processing (s : RMState)
    (msg : InboundMsg) (pl : MsgPayload) (ms : Int)
    (hop : msg.op = some 0) (ht : msg.t = some "READY") (hd : msg.d = some pl)
    (hhb : pl.heartbeatInterval = some ms)
    (hok : s.handlers.handleOk "socket_response" = true) :
    (receivedMessage s msg).2.2 = none ∧
    (receivedMessage s msg).2.1 =
      (Action.logDebug "WebSocket Event" ::
        (dispatch s.handlers "socket_response" s.nextTask).1) ++
      Action.startHeartbeat (dispatch s.handlers "socket_response" s.nextTask).2.2
          ((ms : ℚ) / 1000) ::
      (if s.parsers ("parse_" ++ pyLower "READY")
       then [Action.runParser ("parse_" ++ pyLower "READY")] else []) ∧
    (receivedMessage s msg).1.keepAlive =
      some (dispatch s.handlers "socket_response" s.nextTask).2.2 ∧
    (∀ a ∈ (dispatch s.handlers "socket_response" s.nextTask).1,
      (∀ p, a ≠ Action.runParser p) ∧ (∀ t q, a ≠ Action.startHeartbeat t q)) := by
  by_cases hh : s.handlers.hasHandle "socket_response" <;>
  by_cases ho : s.handlers.hasOn "socket_response" <;>
  by_cases hp : s.parsers ("parse_" ++ pyLower "READY") <;>
    refine ⟨?_, ?_, ?_, ?_⟩ <;>
    simp [receivedMessage, dispatch, hop, ht, hd, hhb, hok, hh, ho, hp]

/-- A plain client for the C5 witness: no handlers registered at all and a
connection exposing parse_ready. -/
def readyWitClient : RMState :=
  { handlers := ⟨fun _ => false, fun _ => true, fun _ => false⟩,
    parsers := fun p => p == "parse_ready",
    keepAlive := none, tasks := [], nextTask := 0 }

/-- A READY dispatch frame with heartbeat_interval 60000 ms. -/
def readyWitFrame : InboundMsg := ⟨some 0, some "READY", some ⟨some 60000⟩⟩

/-- Witness for ready_starts_heartbeat_before_event_processing at a READY
frame carrying heartbeat_interval 60000. -/
theorem ready_starts_heartbeat_before_event_processing_witness :
    (receivedMessage readyWitClient readyWitFrame).2.2 = none ∧
    (receivedMessage readyWitClient readyWitFrame).2.1 =
      (Action.logDebug "WebSocket Event" ::
        (dispatch readyWitClient.handlers "socket_response"
          readyWitClient.nextTask).1) ++
      Action.startHeartbeat
          (dispatch readyWitClient.handlers "socket_response"
            readyWitClient.nextTask).2.2
          (((60000 : Int) : ℚ) / 1000) ::
      (if readyWitClient.parsers ("parse_" ++ pyLower "READY")
       then [Action.runParser ("parse_" ++ pyLower "READY")] else []) ∧
    (receivedMessage readyWitClient readyWitFrame).1.keepAlive =
      some (dispatch readyWitClient.handlers "socket_response"
        readyWitClient.nextTask).2.2 ∧
    (∀ a ∈ (dispatch readyWitClient.handlers "socket_response"
        readyWitClient.nextTask).1,
      (∀ p, a ≠ Action.runParser p) ∧ (∀ t q, a ≠ Action.startHeartbeat t q)) :=
  ready_starts_heartbeat_before_event_processing readyWitClient readyWitFrame
    ⟨some 60000⟩ 60000 rfl rfl rfl rfl rfl

/-- Claim C7 as amended: a frame whose op is not 0 (including a missing op)
is logged and ignored by the event path — no state-mutation parser runs,
no heartbeat task starts, no event-name callback is scheduled and
keep_alive is untouched — but the op-independent raw socket_response
dispatch still runs first and may invoke a registered socket_response
handler with the frame. -/
theorem nonzero_op_no_mutation (s : RMState) (msg : InboundMsg)
    (hop : msg.op ≠ some 0)
    (hok : s.handlers.handleOk "socket_response" = true) :
    (receivedMessage s msg).2.2 = none ∧
    (receivedMessage s msg).2.1 =
      (Action.logDebug "WebSocket Event" ::
        (dispatch s.handlers "socket_response" s.nextTask).1) ++
      [Action.logInfo "Unhandled op"] ∧
    (∀ p, Action.runParser p ∉ (receivedMessage s msg).2.1) ∧
    (∀ t q, Action.startHeartbeat t q ∉ (receivedMessage s msg).2.1) ∧
    (∀ t n, n ≠ "on_socket_response" →
      Action.scheduleEvent t n ∉ (receivedMessage s msg).2.1) ∧
    (receivedMessage s msg).1.keepAlive = s.keepAlive := by
  by_cases hh : s.handlers.hasHandle "socket_response" <;>
  by_cases ho : s.handlers.hasOn "socket_response" <;>
    refine ⟨?_, ?_, ?_, ?_, ?_, ?_⟩ <;>
    simp [receivedMessage, dispatch, hop, hok, hh, ho] <;>
    exact fun t n h _ => h

/-- A client with no handlers at all for the C7 witness. -/
def opWitClient : RMState :=
  { handlers := ⟨fun _ => false, fun _ => true, fun _ => false⟩,
    parsers := fun _ => false, keepAlive := none, tasks := [], nextTask := 0 }

/-- A heartbeat-ack style frame with op 11 and nothing else. -/
def opWitFrame : InboundMsg := ⟨some 11, none, none⟩

/-- Witness for nonzero_op_no_mutation at an op-11 frame on a client with
no registered handlers. -/
theorem nonzero_op_no_mutation_witness :
    (receivedMessage opWitClient opWitFrame).2.2 = none ∧
    (receivedMessage opWitClient opWitFrame).2.1 =
      (Action.logDebug "WebSocket Event" ::
        (dispatch opWitClient.handlers "socket_response" opWitClient.nextTask).1) ++
      [Action.logInfo "Unhandled op"] ∧
    (∀ p, Action.runParser p ∉ (receivedMessage opWitClient opWitFrame).2.1) ∧
    (∀ t q, Action.startHeartbeat t q ∉
      (receivedMessage opWitClient opWitFrame).2.1) ∧
    (∀ t n, n ≠ "on_socket_response" →
      Action.scheduleEvent t n ∉ (receivedMessage opWitClient opWitFrame).2.1) ∧
    (receivedMessage opWitClient opWitFrame).1.keepAlive = opWitClient.keepAlive :=
  nonzero_op_no_mutation opWitClient opWitFrame (by decide) rfl

/-- The client refuting the literal reading of claim C7: a registered
on_socket_response user callback. -/
def opCexClient : RMState :=
  { handlers := ⟨fun _ => false, fun _ => true, fun e => e == "socket_response"⟩,
    parsers := fun _ => false, keepAlive := none, tasks := [], nextTask := 0 }

/-- A non-dispatch frame with op 1. -/
def opCexFrame : InboundMsg := ⟨some 1, none, none⟩

/-- Counterexample to claim C7 as stated: for this frame with op 1 it is
not true that no handler is invoked — the registered socket_response user
callback is scheduled with the frame before the op check ignores it. -/
theorem nonzero_op_schedules_socket_callback :
    opCexFrame.op = some 1 ∧
    (receivedMessage opCexClient opCexFrame).2.1 =
      [Action.logDebug "WebSocket Event",
       Action.logDebug "Dispatching event socket_response",
       Action.scheduleEvent 0 "on_socket_response",
       Action.logInfo "Unhandled op"] ∧
    Action.scheduleEvent 0 "on_socket_response" ∈
      (receivedMessage opCexClient opCexFrame).2.1 := by
  refine ⟨rfl, ?_, ?_⟩ <;>
    simp [receivedMessage, dispatch, opCexClient, opCexFrame]

/-- Claim C9: a second READY frame while the session is open starts a
second heartbeat task and overwrites keep_alive with it without cancelling
the first — both heartbeat tasks are in the running-task set afterwards
and no cancellation is ever emitted by either call, so two heartbeat loops
run concurrently until close(); at most one heartbeat task per session is
not an invariant the code maintains. -/
theorem second_ready_duplicates_heartbeat (s : RMState)
    (msg : InboundMsg) (pl : MsgPayload) (ms : Int)
    (hop : msg.op = some 0) (ht : msg.t = some "READY") (hd : msg.d = some pl)
    (hhb : pl.heartbeatInterval = some ms)
    (hok : s.handlers.handleOk "socket_response" = true) :
    ∃ t1 t2, t1 ≠ t2 ∧
      (receivedMessage s msg).1.keepAlive = some t1 ∧
      (receivedMessage (receivedMessage s msg).1 msg).1.keepAlive = some t2 ∧
      t1 ∈ (receivedMessage (receivedMessage s msg).1 msg).1.tasks ∧
      t2 ∈ (receivedMessage (receivedMessage s msg).1 msg).1.tasks ∧
      (∀ t, Action.cancelTask t ∉ (receivedMessage s msg).2.1) ∧
      (∀ t, Action.cancelTask t ∉
        (receivedMessage (receivedMessage s msg).1 msg).2.1) := by
  by_cases ho : s.handlers.hasOn "socket_response"
  · refine ⟨s.nextTask + 1, s.nextTask + 3, by omega, ?_⟩
    by_cases hh : s.handlers.hasHandle "socket_response" <;>
    by_cases hp : s.parsers ("parse_" ++ pyLower "READY") <;>
      simp [receivedMessage, dispatch, hop, ht, hd, hhb, hok, hh, ho, hp]
  · refine ⟨s.nextTask, s.nextTask + 1, by omega, ?_⟩
    by_cases hh : s.handlers.hasHandle "socket_response" <;>
    by_cases hp : s.parsers ("parse_" ++ pyLower "READY") <;>
      simp [receivedMessage, dispatch, hop, ht, hd, hhb, hok, hh, ho, hp]

/-- A plain client for the C9 witness. -/
def dupWitClient : RMState :=
  { handlers := ⟨fun _ => false, fun _ => true, fun _ => false⟩,
    parsers := fun p => p == "parse_ready",
    keepAlive := none, tasks := [], nextTask := 0 }

/-- A READY dispatch frame with heartbeat_interval 41250 ms. -/
def dupWitFrame : InboundMsg := ⟨some 0, some "READY", some ⟨some 41250⟩⟩

/-- Witness for second_ready_duplicates_heartbeat: two READY frames in a
row leave two uncancelled heartbeat tasks running. -/
theorem second_ready_duplicates_heartbeat_witness :
    ∃ t1 t2, t1 ≠ t2 ∧
      (receivedMessage dupWitClient dupWitFrame).1.keepAlive = some t1 ∧
      (receivedMessage (receivedMessage dupWitClient dupWitFrame).1
        dupWitFrame).1.keepAlive = some t2 ∧
      t1 ∈ (receivedMessage (receivedMessage dupWitClient dupWitFrame).1
        dupWitFrame).1.tasks ∧
      t2 ∈ (receivedMessage (receivedMessage dupWitClient dupWitFrame).1
        dupWitFrame).1.tasks ∧
      (∀ t, Action.cancelTask t ∉
        (receivedMessage dupWitClient dupWitFrame).2.1) ∧
      (∀ t, Action.cancelTask t ∉
        (receivedMessage (receivedMessage dupWitClient dupWitFrame).1
          dupWitFrame).2.1) :=
  second_ready_duplicates_heartbeat dupWitClient dupWitFrame
    ⟨some 41250⟩ 41250 rfl rfl rfl rfl rfl

end DiscordClient
